import Mathlib

set_option maxHeartbeats 1000000

/- Verification development for the TIM chatbot backend (server.js):
the syllabus cache, course detection, the clarification short-circuit,
and outbound context assembly of the POST /api/chat handler. -/

/-- JS String.prototype.toLowerCase, restricted to the characters the
backend actually handles: ASCII letters plus the German capital umlauts. -/
def jsCharToLower (c : Char) : Char :=
  if c = 'Ä' then 'ä' else if c = 'Ö' then 'ö' else if c = 'Ü' then 'ü'
  else c.toLower

def jsToLower (s : String) : String :=
  String.mk (s.toList.map jsCharToLower)

/-- leadsWith pat l: pat occurs at the very front of l. -/
def leadsWith : List Char → List Char → Bool
  | [], _ => true
  | _ :: _, [] => false
  | a :: as, b :: bs => if a = b then leadsWith as bs else false

/-- occursIn pat l: pat occurs contiguously somewhere in l. -/
def occursIn (pat : List Char) : List Char → Bool
  | [] => leadsWith pat []
  | b :: bs => if leadsWith pat (b :: bs) then true else occursIn pat bs

/-- JS hay.includes(pat). -/
def strContains (hay pat : String) : Bool :=
  occursIn pat.toList hay.toList

/-- One value of the syllabus index object: `{ aliases: [...], syllabus_url: ... }`. -/
structure CourseMeta where
  aliases : List String
  syllabus_url : Option String
deriving DecidableEq, Repr

/-- The parsed syllabus index: Object.entries order is significant, so the
object is modelled as an association list (keys unique in actual JS objects). -/
abbrev CourseIndex := List (String × CourseMeta)

/-- A loosely-typed chat message as received in the request body: either
field may be absent. -/
structure RawMsg where
  role : Option String
  content : Option String
deriving DecidableEq, Repr

/-- `[courseName, ...(meta.aliases || [])].map(s => String(s).toLowerCase()).filter(Boolean)`:
the empty string is the only falsy string, so filter(Boolean) drops exactly "". -/
def courseAliases (courseName : String) (meta : CourseMeta) : List String :=
  ((courseName :: meta.aliases).map jsToLower).filter (fun s => decide (s ≠ ""))

/-- The `for (const [courseName, meta] of Object.entries(indexObj))` loop of
findCourseFromUserText, over the lowercased user text t. -/
def findCourseLoop (t : String) : CourseIndex → Option String
  | [] => none
  | (courseName, meta) :: rest =>
    if (courseAliases courseName meta).any (fun a => strContains t a) then some courseName
    else findCourseLoop t rest

def findCourseFromUserText (indexObj : CourseIndex) (userText : String) : Option String :=
  findCourseLoop (jsToLower userText) indexObj

/-- The alternatives of the organizational-question regex
`/prüfung|exam|...|time/i` in source order. -/
def organizationalKeywords : List String :=
  ["prüfung", "exam", "deadline", "anmeldung", "registration", "note", "grading",
   "bewertung", "attendance", "anwesenheit", "raum", "room", "termin", "date",
   "uhrzeit", "time"]

/-- `needsCourse`: the regex test, i.e. some alternative occurs in the text,
case-insensitively. -/
def needsCourseContext (text : String) : Bool :=
  organizationalKeywords.any (fun k => strContains (jsToLower text) k)

/-- syllabusCache.index: `{ value, fetchedAt }` with a null-able value. -/
abbrev IndexCacheEntry := Option (CourseIndex × Int)

/-- getSyllabiIndex. The awaited result of `JSON.parse(await fetchText(url))`
is passed in as fetchResult (ok = fetched and parsed, error = non-success
status or parse error thrown before any cache assignment). The returned Bool
records whether the fetcher was invoked. -/
def getSyllabiIndex (cfgUrl : Option String) (st : IndexCacheEntry) (now ttl : Int)
    (fetchResult : Except String CourseIndex) :
    Except String CourseIndex × IndexCacheEntry × Bool :=
  match cfgUrl with
  | none => (Except.error "Missing SYLLABI_INDEX_URL env var", st, false)
  | some _ =>
    match st with
    | some (v, fetchedAt) =>
      if now - fetchedAt < ttl then (Except.ok v, some (v, fetchedAt), false)
      else
        match fetchResult with
        | Except.ok parsed => (Except.ok parsed, some (parsed, now), true)
        | Except.error e => (Except.error e, some (v, fetchedAt), true)
    | none =>
      match fetchResult with
      | Except.ok parsed => (Except.ok parsed, some (parsed, now), true)
      | Except.error e => (Except.error e, none, true)

/-- syllabusCache.byUrl: Map from url to { value, fetchedAt }, modelled as an
association list in insertion order. -/
abbrev UrlCache := List (String × String × Int)

def lookupEntry : UrlCache → String → Option (String × Int)
  | [], _ => none
  | p :: rest, url => if p.1 = url then some p.2 else lookupEntry rest url

/-- Map.set: overwrite the existing entry in place, else append. -/
def setEntry : UrlCache → String → String → Int → UrlCache
  | [], url, text, t => [(url, text, t)]
  | p :: rest, url, text, t =>
    if p.1 = url then (url, text, t) :: rest else p :: setEntry rest url text t

/-- getSyllabusText. fetchResult is the awaited result of `fetchText(url)`;
an error is thrown before the Map.set line, leaving the cache unchanged. -/
def getSyllabusText (st : UrlCache) (url : String) (now ttl : Int)
    (fetchResult : Except String String) :
    Except String String × UrlCache × Bool :=
  match lookupEntry st url with
  | some (v, fetchedAt) =>
    if now - fetchedAt < ttl then (Except.ok v, st, false)
    else
      match fetchResult with
      | Except.ok text => (Except.ok text, setEntry st url text now, true)
      | Except.error e => (Except.error e, st, true)
  | none =>
    match fetchResult with
    | Except.ok text => (Except.ok text, setEntry st url text now, true)
    | Except.error e => (Except.error e, st, true)

/-- `[...messages].reverse().find(m => m?.role === "user")` followed by
`(lastUser?.content || "").toString()`. -/
def lastUserTextOf (messages : List RawMsg) : String :=
  match messages.reverse.find? (fun m => decide (m.role = some "user")) with
  | some m => m.content.getD ""
  | none => ""

/-- JS truthiness of the detection result: null and the empty string are falsy. -/
def truthyStr (o : Option String) : Bool :=
  match o with
  | some s => decide (s ≠ "")
  | none => false

/-- The runtimeContextMessage literal, parameterized over the Intl-formatted
Vienna weekday/date/time and the last user text. -/
def runtimeContextMessage (viennaWeekday viennaDate viennaTime lastUserText : String) : RawMsg :=
  { role := some "system"
    content := some
      ("Runtime context (authoritative):\n" ++
       "- Timezone: Europe/Vienna\n" ++
       "- Today: " ++ viennaWeekday ++ ", " ++ viennaDate ++ "\n" ++
       "- Current time: " ++ viennaTime ++ "\n" ++
       "Rules:\n" ++
       "- If ANY prior message (including assistant messages) conflicts with the runtime context, correct it.\n" ++
       "- Interpret \"today/tomorrow/next week\" using the runtime date.\n" ++
       "- Reply in the same language as the user\x27s last message.\n" ++
       "User last message:\n" ++ lastUserText ++ "\n") }

/-- The fixed persona systemMessage literal. -/
def systemMessage : RawMsg :=
  { role := some "system"
    content := some
      ("You are the official student assistant for the Chair of Technology and Innovation Management (TIM).\n\n" ++
       "Institutional context:\n" ++
       "- Chair: Technology and Innovation Management (TIM)\n" ++
       "- Institute: Institut für Rechnungswesen, Innovation und Strategie\n" ++
       "- Faculty: Faculty of Business, Economics and Statistics\n" ++
       "- University: University of Vienna\n" ++
       "- TIM offers multiple courses as part of one specialization within Business Administration, International Business, and related curricula.\n\n" ++
       "Scope and authority:\n" ++
       "- You support students taking ANY TIM course.\n" ++
       "- You answer organizational and content-related questions reliably and confidently.\n" ++
       "- Organizational information must be grounded in the official syllabus first.\n" ++
       "- If information is not in the syllabus, it may be confirmed via official University of Vienna websites.\n" ++
       "- Never invent dates, rules, or requirements.\n\n" ++
       "Course disambiguation rule:\n" ++
       "- If a question depends on a specific TIM course and the course is not clearly specified, ask ONE short clarifying question naming the relevant course options.\n" ++
       "- Do not guess which course the student means.\n\n" ++
       "Answer policy:\n" ++
       "- If a question can be answered with available information, answer it immediately.\n" ++
       "- Do NOT ask follow-up questions unless essential information is missing.\n" ++
       "- For organizational questions, respond in 1–2 short sentences.\n" ++
       "- For content-related questions, respond concisely but completely.\n" ++
       "- Avoid greetings, small talk, or closing questions.\n" ++
       "- Avoid hedging language (e.g., \x27voraussichtlich\x27, \x27meistens\x27) unless uncertainty is real and unavoidable.\n\n" ++
       "Language and clarity:\n" ++
       "- Always reply in the language of the user\x27s last message.\n" ++
       "- Use clear, student-friendly wording.\n" ++
       "- State facts directly and precisely.\n\n" ++
       "Fallback behavior:\n" ++
       "- If information is not available or cannot be verified, say so explicitly and indicate where the student should check next (e.g., syllabus, official website, course coordinator).\n" ++
       "- Do not speculate.\n\n" ++
       "Stop after the answer.") }

/-- The syllabusContextMessage built for a detected course. -/
def syllabusMsg (detectedCourse syllabusText : String) : RawMsg :=
  { role := some "system"
    content := some
      ("Authoritative syllabus (use this first). Course: " ++ detectedCourse ++ "\n" ++
       "Rules:\n" ++
       "- For organizational questions, answer ONLY if the answer is in this syllabus text.\n" ++
       "- If not in syllabus, say so and ask one clarifying question or suggest checking official Uni Wien pages.\n\n" ++
       syllabusText) }

/-- The clarification reply: `` `Für welchen TIM-Kurs meinst du das? (${courseList.join(" / ")})` ``. -/
def clarificationReply (courseList : List String) : String :=
  "Für welchen TIM-Kurs meinst du das? (" ++ String.intercalate " / " courseList ++ ")"

/-- callLLM: throws on any provider other than "openai"; otherwise the
awaited chat-completion result for the outbound messages is api messages. -/
def callLLM (provider : String) (api : List RawMsg → Except String String)
    (messages : List RawMsg) : Except String String :=
  if provider ≠ "openai" then
    Except.error ("Unsupported PROVIDER=" ++ provider ++ ". Set PROVIDER=openai.")
  else api messages

/-- The `if (detectedCourse) { ... }` block: which syllabusContextMessage (if
any) the handler ends up with, given a loaded index. syllabusFetch is the
awaited outcome of getSyllabusText per url; a thrown error is caught by the
surrounding try and leaves the message null. -/
def syllabusPayload (indexObj : CourseIndex) (syllabusFetch : String → Except String String)
    (t : String) : Option RawMsg :=
  match findCourseFromUserText indexObj t with
  | none => none
  | some c =>
    if c ≠ "" then
      match (indexObj.find? (fun p => decide (p.1 = c))).bind (fun p => p.2.syllabus_url) with
      | some url =>
        if url ≠ "" then
          match syllabusFetch url with
          | Except.ok text => some (syllabusMsg c text)
          | Except.error _ => none
        else none
      | none => none
    else none

/-- Outcome of the try-block around index loading, detection and the
clarification gate: either the short-circuit clarification reply, or the
optional syllabus message to prepend. -/
inductive PhaseResult where
  | clarify (reply : String)
  | proceed (syl : Option RawMsg)
deriving DecidableEq, Repr

/-- The try-block of the chat handler. indexResult is the awaited outcome of
getSyllabiIndex (a thrown error is caught, leaving no syllabus context). -/
def syllabusPhase (indexResult : Except String CourseIndex)
    (syllabusFetch : String → Except String String) (t : String) : PhaseResult :=
  match indexResult with
  | Except.error _ => PhaseResult.proceed none
  | Except.ok indexObj =>
    if !truthyStr (findCourseFromUserText indexObj t) && needsCourseContext t
        && decide (1 < (indexObj.map (fun p => p.1)).length) then
      PhaseResult.clarify (clarificationReply (indexObj.map (fun p => p.1)))
    else
      PhaseResult.proceed (syllabusPayload indexObj syllabusFetch t)

/-- The three response shapes of POST /api/chat. -/
inductive HttpResponse where
  | badRequest
  | replyJson (reply : String)
  | serverError
deriving DecidableEq, Repr

/-- What a chat request produced: the HTTP response, and the message list
callLLM was invoked with (none when the model client was never invoked). -/
structure ChatOutcome where
  response : HttpResponse
  llmOutbound : Option (List RawMsg)
deriving DecidableEq, Repr

/-- The POST /api/chat handler. messagesField is some msgs when req.body's
messages field is an array, none otherwise. The semesterLabel computed in the
source is unused downstream and omitted. -/
def chatHandler (provider : String) (api : List RawMsg → Except String String)
    (viennaWeekday viennaDate viennaTime : String)
    (indexResult : Except String CourseIndex)
    (syllabusFetch : String → Except String String)
    (messagesField : Option (List RawMsg)) : ChatOutcome :=
  match messagesField with
  | none => { response := HttpResponse.badRequest, llmOutbound := none }
  | some messages =>
    let t := lastUserTextOf messages
    match syllabusPhase indexResult syllabusFetch t with
    | PhaseResult.clarify r => { response := HttpResponse.replyJson r, llmOutbound := none }
    | PhaseResult.proceed syl =>
      let outbound :=
        match syl with
        | some s =>
          [runtimeContextMessage viennaWeekday viennaDate viennaTime t, systemMessage, s]
            ++ messages
        | none =>
          [runtimeContextMessage viennaWeekday viennaDate viennaTime t, systemMessage]
            ++ messages
      match callLLM provider api outbound with
      | Except.ok reply => { response := HttpResponse.replyJson reply, llmOutbound := some outbound }
      | Except.error _ => { response := HttpResponse.serverError, llmOutbound := some outbound }

/-- Response of GET /debug/syllabi-index: status plus the JSON body fields. -/
structure DebugResponse where
  status : Nat
  ok : Bool
  courses : Option (List String)
  errorText : Option String
deriving DecidableEq, Repr

/-- The GET /debug/syllabi-index handler: Object.keys on success, and the
catch branch `res.status(500).json({ ok: false, error })` on failure. -/
def debugSyllabiIndexHandler (cfgUrl : Option String) (st : IndexCacheEntry)
    (now ttl : Int) (fetchResult : Except String CourseIndex) : DebugResponse :=
  match (getSyllabiIndex cfgUrl st now ttl fetchResult).1 with
  | Except.ok idx =>
    { status := 200, ok := true, courses := some (idx.map (fun p => p.1)), errorText := none }
  | Except.error e =>
    { status := 500, ok := false, courses := none, errorText := some e }

/-- The condition under which the handler ends up with a syllabus message:
the detector returned a course with a (truthy) non-empty name, its index
entry carries a non-empty syllabus_url, and fetching that url succeeded. -/
def syllabusRetrieved (indexResult : Except String CourseIndex)
    (syllabusFetch : String → Except String String) (t c text : String) : Prop :=
  ∃ idx, indexResult = Except.ok idx ∧
    findCourseFromUserText idx t = some c ∧ c ≠ "" ∧
    ∃ url, (idx.find? (fun p => decide (p.1 = c))).bind (fun p => p.2.syllabus_url) = some url ∧
      url ≠ "" ∧ syllabusFetch url = Except.ok text

/- Concrete inputs for witnesses and counterexamples. -/

def witIdxAmb : CourseIndex :=
  [("XYZ", { aliases := [], syllabus_url := none }),
   ("QQQ", { aliases := [], syllabus_url := none })]

def witMsgsExam : List RawMsg := [{ role := some "user", content := some "When is the exam?" }]

def witApi : List RawMsg → Except String String := fun _ => Except.ok "All good."

def witSfDown : String → Except String String := fun _ => Except.error "fetch failed"

def witSfOk : String → Except String String := fun _ => Except.ok "SYLTEXT"

def cexIdxEmptyName : CourseIndex := [("", { aliases := ["tim"], syllabus_url := some "u" })]

def cexMsgsTim : List RawMsg := [{ role := some "user", content := some "tim" }]

def cexIdxEmptyUrl : CourseIndex := [("TIM", { aliases := [], syllabus_url := some "" })]

def cexMsgsTimStuff : List RawMsg := [{ role := some "user", content := some "tim stuff" }]

def witIdxKfk : CourseIndex :=
  [("KFK TIM", { aliases := ["innovation management"], syllabus_url := some "https://syl" })]

def witMsgsKfk : List RawMsg := [{ role := some "user", content := some "Tell me about KFK TIM" }]

def witOutKfk : List RawMsg :=
  [runtimeContextMessage "Monday" "2026-01-05" "10:00" "Tell me about KFK TIM", systemMessage,
   syllabusMsg "KFK TIM" "SYLTEXT"] ++ witMsgsKfk

def witMsgsNoUser : List RawMsg := [{ role := some "assistant", content := some "hello" }]

def c7Msgs : List RawMsg := [{ role := none, content := none }]

/- Helper lemmas. -/

theorem lookupEntry_setEntry (st : UrlCache) (url text : String) (t : Int) :
    lookupEntry (setEntry st url text t) url = some (text, t) := by
  induction st with
  | nil => simp [setEntry, lookupEntry]
  | cons p rest ih =>
    by_cases h : p.1 = url
    · simp [setEntry, lookupEntry, h]
    · simp [setEntry, lookupEntry, h, ih]

theorem strContains_empty_left (a : String) (ha : a ≠ "") : strContains "" a = false := by
  unfold strContains
  rcases hl : a.toList with _ | ⟨c, cs⟩
  · exact absurd (String.ext (hl.trans rfl)) ha
  · rfl

theorem findCourse_empty_text (idx : CourseIndex) : findCourseFromUserText idx "" = none := by
  unfold findCourseFromUserText
  have hjl : jsToLower "" = "" := rfl
  rw [hjl]
  induction idx with
  | nil => rfl
  | cons p rest ih =>
    rcases p with ⟨cn, meta⟩
    have hany : (courseAliases cn meta).any (fun a => strContains "" a) = false := by
      rw [List.any_eq_false]
      intro a ha
      have hne : a ≠ "" := by
        have hmem := List.mem_filter.mp ha
        simpa using hmem.2
      simp [strContains_empty_left a hne]
    simp [findCourseLoop, hany, ih]

theorem syllabusPhase_clarify_eq (idx : CourseIndex) (sf : String → Except String String)
    (t : String) (hdet : findCourseFromUserText idx t = none)
    (hneed : needsCourseContext t = true) (hlen : 1 < idx.length) :
    syllabusPhase (Except.ok idx) sf t =
      PhaseResult.clarify (clarificationReply (idx.map (fun p => p.1))) := by
  simp [syllabusPhase, hdet, hneed, truthyStr, List.length_map, hlen]

theorem chatHandler_clarify (provider : String) (api : List RawMsg → Except String String)
    (w d ti : String) (idx : CourseIndex) (sf : String → Except String String)
    (msgs : List RawMsg)
    (hdet : findCourseFromUserText idx (lastUserTextOf msgs) = none)
    (hneed : needsCourseContext (lastUserTextOf msgs) = true)
    (hlen : 1 < idx.length) :
    chatHandler provider api w d ti (Except.ok idx) sf (some msgs) =
      { response := HttpResponse.replyJson (clarificationReply (idx.map (fun p => p.1))),
        llmOutbound := none } := by
  simp [chatHandler, syllabusPhase_clarify_eq idx sf _ hdet hneed hlen]

theorem chatHandler_llmOutbound_of_proceed (provider : String)
    (api : List RawMsg → Except String String) (w d ti : String)
    (indexResult : Except String CourseIndex) (sf : String → Except String String)
    (msgs : List RawMsg) (syl : Option RawMsg)
    (hp : syllabusPhase indexResult sf (lastUserTextOf msgs) = PhaseResult.proceed syl) :
    (chatHandler provider api w d ti indexResult sf (some msgs)).llmOutbound =
      some (runtimeContextMessage w d ti (lastUserTextOf msgs) :: systemMessage ::
        (syl.toList ++ msgs)) := by
  simp only [chatHandler, hp]
  cases syl with
  | none =>
    cases hc : callLLM provider api
        ([runtimeContextMessage w d ti (lastUserTextOf msgs), systemMessage] ++ msgs) with
    | ok r => simp [hc]
    | error e => simp [hc]
  | some s =>
    cases hc : callLLM provider api
        ([runtimeContextMessage w d ti (lastUserTextOf msgs), systemMessage, s] ++ msgs) with
    | ok r => simp [hc]
    | error e => simp [hc]

theorem syllabusPhase_empty_text (indexResult : Except String CourseIndex)
    (sf : String → Except String String) :
    syllabusPhase indexResult sf "" = PhaseResult.proceed none := by
  cases indexResult with
  | error e => rfl
  | ok idx =>
    have hdet := findCourse_empty_text idx
    have hneed : needsCourseContext "" = false := by decide
    simp [syllabusPhase, hdet, hneed, truthyStr, syllabusPayload]

theorem chatHandler_proceed_none_ok (api : List RawMsg → Except String String)
    (w d ti : String) (indexResult : Except String CourseIndex)
    (sf : String → Except String String) (msgs : List RawMsg) (r : String)
    (hp : syllabusPhase indexResult sf (lastUserTextOf msgs) = PhaseResult.proceed none)
    (hapi : api (runtimeContextMessage w d ti (lastUserTextOf msgs) :: systemMessage :: msgs) =
      Except.ok r) :
    chatHandler "openai" api w d ti indexResult sf (some msgs) =
      { response := HttpResponse.replyJson r,
        llmOutbound := some (runtimeContextMessage w d ti (lastUserTextOf msgs) ::
          systemMessage :: msgs) } := by
  simp only [chatHandler, hp]
  have hcall : callLLM "openai" api
      (runtimeContextMessage w d ti (lastUserTextOf msgs) :: systemMessage :: msgs) =
      Except.ok r := by
    simpa [callLLM] using hapi
  simp [hcall]

theorem syllabusPayload_some_spec (idx : CourseIndex) (sf : String → Except String String)
    (t : String) (s : RawMsg) (h : syllabusPayload idx sf t = some s) :
    ∃ c text, s = syllabusMsg c text ∧ syllabusRetrieved (Except.ok idx) sf t c text := by
  unfold syllabusPayload at h
  rcases hdet : findCourseFromUserText idx t with _ | c
  · simp [hdet] at h
  · simp only [hdet] at h
    by_cases hc : c = ""
    · rw [if_neg (by simp [hc])] at h
      cases h
    · rw [if_pos hc] at h
      rcases hurl : (idx.find? (fun p => decide (p.1 = c))).bind (fun p => p.2.syllabus_url)
        with _ | url
      · simp [hurl] at h
      · simp only [hurl] at h
        by_cases hu : url = ""
        · rw [if_neg (by simp [hu])] at h
          cases h
        · rw [if_pos hu] at h
          cases hsf : sf url with
          | error e => simp [hsf] at h
          | ok text =>
            simp only [hsf] at h
            injection h with h'
            exact ⟨c, text, h'.symm, idx, rfl, hdet, hc, url, hurl, hu, hsf⟩

theorem syllabusPayload_none_spec (idx : CourseIndex) (sf : String → Except String String)
    (t : String) (h : syllabusPayload idx sf t = none) (c text : String) :
    ¬ syllabusRetrieved (Except.ok idx) sf t c text := by
  rintro ⟨idx', hidx, hdet, hc, url, hurl, hu, hsf⟩
  injection hidx with hidx'
  subst hidx'
  unfold syllabusPayload at h
  simp only [hdet] at h
  rw [if_pos hc] at h
  simp only [hurl] at h
  rw [if_pos hu] at h
  simp only [hsf] at h
  cases h

/- Claim theorems. -/

/-- C1: for every POST /api/chat request whose last user message matches no
course alias, matches the organizational-keyword pattern, and whose fetched
index lists more than one course, the handler responds immediately with the
clarification reply listing all course names joined by " / ", and the model
client is never invoked. -/
theorem claim1_ambiguous_clarification_shortcircuit (provider : String)
    (api : List RawMsg → Except String String) (w d ti : String) (idx : CourseIndex)
    (sf : String → Except String String) (msgs : List RawMsg)
    (hdet : findCourseFromUserText idx (lastUserTextOf msgs) = none)
    (hneed : needsCourseContext (lastUserTextOf msgs) = true)
    (hlen : 1 < idx.length) :
    chatHandler provider api w d ti (Except.ok idx) sf (some msgs) =
      { response := HttpResponse.replyJson (clarificationReply (idx.map (fun p => p.1))),
        llmOutbound := none } :=
  chatHandler_clarify provider api w d ti idx sf msgs hdet hneed hlen

/-- Witness for C1: index with courses XYZ and QQQ (no alias matches), user
message "When is the exam?". -/
theorem claim1_witness :
    chatHandler "openai" witApi "Monday" "2026-01-05" "10:00" (Except.ok witIdxAmb)
      witSfDown (some witMsgsExam) =
      { response := HttpResponse.replyJson (clarificationReply (witIdxAmb.map (fun p => p.1))),
        llmOutbound := none } :=
  claim1_ambiguous_clarification_shortcircuit "openai" witApi "Monday" "2026-01-05" "10:00"
    witIdxAmb witSfDown witMsgsExam (by decide) (by decide) (by decide)

/-- C3: for each cache (the index entry and any per-url syllabus entry) holding
a stored value, a read at age < TTL returns the stored value without invoking
the fetcher and leaves the entry unchanged; a read at age ≥ TTL invokes the
fetcher, stores the result with fetchedAt set to the read time, and returns it. -/
theorem claim3_cache_ttl_discipline (cfg url sv sx : String) (v x : CourseIndex)
    (fat sfat now ttl : Int) (st2 : UrlCache) :
    (∀ fr, now - fat < ttl →
      getSyllabiIndex (some cfg) (some (v, fat)) now ttl fr =
        (Except.ok v, some (v, fat), false)) ∧
    (¬(now - fat < ttl) →
      getSyllabiIndex (some cfg) (some (v, fat)) now ttl (Except.ok x) =
        (Except.ok x, some (x, now), true)) ∧
    (∀ fr, lookupEntry st2 url = some (sv, sfat) → now - sfat < ttl →
      getSyllabusText st2 url now ttl fr = (Except.ok sv, st2, false)) ∧
    (lookupEntry st2 url = some (sv, sfat) → ¬(now - sfat < ttl) →
      getSyllabusText st2 url now ttl (Except.ok sx) =
        (Except.ok sx, setEntry st2 url sx now, true) ∧
      lookupEntry (setEntry st2 url sx now) url = some (sx, now)) := by
  refine ⟨?_, ?_, ?_, ?_⟩
  · intro fr hfresh
    simp [getSyllabiIndex, hfresh]
  · intro hstale
    simp [getSyllabiIndex, hstale]
  · intro fr hl hfresh
    simp [getSyllabusText, hl, hfresh]
  · intro hl hstale
    exact ⟨by simp [getSyllabusText, hl, hstale], lookupEntry_setEntry st2 url sx now⟩

/-- Witness for C3: a fresh index read hits the cache without fetching; a stale
per-url read fetches, stores (value, now) and returns the new text. -/
theorem claim3_witness :
    getSyllabiIndex (some "https://idx") (some (witIdxAmb, 900000)) 900001 900000
        (Except.error "down") =
      (Except.ok witIdxAmb, some (witIdxAmb, 900000), false) ∧
    (getSyllabusText [("https://syl", "old", 0)] "https://syl" 900001 900000
        (Except.ok "new") =
      (Except.ok "new", setEntry [("https://syl", "old", 0)] "https://syl" "new" 900001, true) ∧
      lookupEntry (setEntry [("https://syl", "old", 0)] "https://syl" "new" 900001)
        "https://syl" = some ("new", 900001)) :=
  ⟨(claim3_cache_ttl_discipline "https://idx" "https://syl" "old" "new" witIdxAmb witIdxAmb
      900000 0 900001 900000 [("https://syl", "old", 0)]).1 (Except.error "down") (by decide),
   (claim3_cache_ttl_discipline "https://idx" "https://syl" "old" "new" witIdxAmb witIdxAmb
      900000 0 900001 900000 [("https://syl", "old", 0)]).2.2.2 (by decide) (by decide)⟩

/-- C4: detection lowercases the text and returns the name of the first course
in index order whose name or declared aliases (lowercased, empty strings
excluded) occur as a substring of the lowercased text; none if no course
matches. -/
theorem claim4_first_match_detection (indexObj : CourseIndex) (text : String) :
    findCourseFromUserText indexObj text =
      (indexObj.find? (fun p =>
        (courseAliases p.1 p.2).any (fun a => strContains (jsToLower text) a))).map
        (fun p => p.1) := by
  induction indexObj with
  | nil => rfl
  | cons p rest ih =>
    rcases p with ⟨courseName, meta⟩
    cases hany : (courseAliases courseName meta).any (fun a => strContains (jsToLower text) a) with
    | true =>
      rw [List.find?_cons_of_pos _ (by simpa using hany)]
      simp [findCourseFromUserText, findCourseLoop, hany]
    | false =>
      rw [List.find?_cons_of_neg _ (by simpa using hany)]
      simpa [findCourseFromUserText, findCourseLoop, hany] using ih

/-- C5: a failing fetch (non-success status or parse error) propagates as an
error from the cache read, and the cache entry for that key is left exactly
as it was, for both the index cache and the per-url syllabus cache. -/
theorem claim5_fetch_error_preserves_cache (cfg url e : String) (v : CourseIndex)
    (fat now ttl : Int) (st2 : UrlCache) :
    (¬(now - fat < ttl) →
      getSyllabiIndex (some cfg) (some (v, fat)) now ttl (Except.error e) =
        (Except.error e, some (v, fat), true)) ∧
    (getSyllabiIndex (some cfg) none now ttl (Except.error e) =
      (Except.error e, none, true)) ∧
    (∀ sv sfat, lookupEntry st2 url = some (sv, sfat) → ¬(now - sfat < ttl) →
      getSyllabusText st2 url now ttl (Except.error e) = (Except.error e, st2, true)) ∧
    (lookupEntry st2 url = none →
      getSyllabusText st2 url now ttl (Except.error e) = (Except.error e, st2, true)) := by
  refine ⟨?_, ?_, ?_, ?_⟩
  · intro hstale
    simp [getSyllabiIndex, hstale]
  · simp [getSyllabiIndex]
  · intro sv sfat hl hstale
    simp [getSyllabusText, hl, hstale]
  · intro hl
    simp [getSyllabusText, hl]

/-- Witness for C5: a stale index entry plus a failing fetch propagates the
error and keeps the old (value, fetchedAt) pair. -/
theorem claim5_witness :
    getSyllabiIndex (some "https://idx") (some (witIdxAmb, 0)) 900001 900000
        (Except.error "down") =
      (Except.error "down", some (witIdxAmb, 0), true) :=
  (claim5_fetch_error_preserves_cache "https://idx" "https://syl" "down" witIdxAmb
      0 900001 900000 []).1 (by decide)

/-- C6: if the index fetch throws, or a detected course's syllabus fetch
throws, the chat request still succeeds with the model's 200 reply, the model
being called with only the runtime-context and persona messages prepended. -/
theorem claim6_fetch_failure_degrades (api : List RawMsg → Except String String)
    (w d ti : String) (indexResult : Except String CourseIndex)
    (sf : String → Except String String) (msgs : List RawMsg) (r : String)
    (hfail : (∃ e, indexResult = Except.error e) ∨
      (∃ idx c url, indexResult = Except.ok idx ∧
        findCourseFromUserText idx (lastUserTextOf msgs) = some c ∧ c ≠ "" ∧
        (idx.find? (fun p => decide (p.1 = c))).bind (fun p => p.2.syllabus_url) = some url ∧
        url ≠ "" ∧ (∃ e, sf url = Except.error e)))
    (hapi : api (runtimeContextMessage w d ti (lastUserTextOf msgs) :: systemMessage :: msgs) =
      Except.ok r) :
    chatHandler "openai" api w d ti indexResult sf (some msgs) =
      { response := HttpResponse.replyJson r,
        llmOutbound := some (runtimeContextMessage w d ti (lastUserTextOf msgs) ::
          systemMessage :: msgs) } := by
  apply chatHandler_proceed_none_ok api w d ti indexResult sf msgs r ?_ hapi
  rcases hfail with ⟨e, rfl⟩ | ⟨idx, c, url, rfl, hdet, hc, hurl, hune, e2, hferr⟩
  · rfl
  · simp [syllabusPhase, truthyStr, hdet, hc, syllabusPayload, hurl, hune, hferr]

/-- Witness for C6: the index fetch throws, yet the request returns the
model's reply with only runtime and persona messages prepended. -/
theorem claim6_witness :
    chatHandler "openai" witApi "Monday" "2026-01-05" "10:00" (Except.error "fetch failed")
      witSfDown (some witMsgsExam) =
      { response := HttpResponse.replyJson "All good.",
        llmOutbound := some (runtimeContextMessage "Monday" "2026-01-05" "10:00"
          (lastUserTextOf witMsgsExam) :: systemMessage :: witMsgsExam) } :=
  claim6_fetch_failure_degrades witApi "Monday" "2026-01-05" "10:00"
    (Except.error "fetch failed") witSfDown witMsgsExam "All good."
    (Or.inl ⟨"fetch failed", rfl⟩) rfl

/-- C9: when the conversation contains no message with role "user", the
detection text is empty, the keyword gate is false, the try-block yields no
clarification and no syllabus message, and the model is called with exactly
the runtime-context and persona messages prepended to the conversation. -/
theorem claim9_no_user_message (provider : String) (api : List RawMsg → Except String String)
    (w d ti : String) (indexResult : Except String CourseIndex)
    (sf : String → Except String String) (msgs : List RawMsg)
    (h : ∀ m ∈ msgs, m.role ≠ some "user") :
    lastUserTextOf msgs = "" ∧
    needsCourseContext (lastUserTextOf msgs) = false ∧
    syllabusPhase indexResult sf (lastUserTextOf msgs) = PhaseResult.proceed none ∧
    (chatHandler provider api w d ti indexResult sf (some msgs)).llmOutbound =
      some (runtimeContextMessage w d ti "" :: systemMessage :: msgs) := by
  have hfindnone : msgs.reverse.find? (fun m => decide (m.role = some "user")) = none := by
    rw [List.find?_eq_none]
    intro m hm
    simp only [List.mem_reverse] at hm
    simpa using h m hm
  have hlast : lastUserTextOf msgs = "" := by
    simp [lastUserTextOf, hfindnone]
  have hphase : syllabusPhase indexResult sf (lastUserTextOf msgs) = PhaseResult.proceed none := by
    rw [hlast]
    exact syllabusPhase_empty_text indexResult sf
  refine ⟨hlast, by rw [hlast]; decide, hphase, ?_⟩
  have hout := chatHandler_llmOutbound_of_proceed provider api w d ti indexResult sf msgs
    none hphase
  rw [hout, hlast]
  simp

/-- Witness for C9: a conversation holding a single assistant message. -/
theorem claim9_witness :
    lastUserTextOf witMsgsNoUser = "" ∧
    needsCourseContext (lastUserTextOf witMsgsNoUser) = false ∧
    syllabusPhase (Except.ok witIdxAmb) witSfDown (lastUserTextOf witMsgsNoUser) =
      PhaseResult.proceed none ∧
    (chatHandler "openai" witApi "Monday" "2026-01-05" "10:00" (Except.ok witIdxAmb)
        witSfDown (some witMsgsNoUser)).llmOutbound =
      some (runtimeContextMessage "Monday" "2026-01-05" "10:00" "" :: systemMessage ::
        witMsgsNoUser) :=
  claim9_no_user_message "openai" witApi "Monday" "2026-01-05" "10:00" (Except.ok witIdxAmb)
    witSfDown witMsgsNoUser (by decide)

/-- C10: with a provider other than "openai", a request meeting the ambiguity
condition still receives the 200 clarification reply — the short-circuit
returns before callLLM's provider check is reached, so no 500 is produced. -/
theorem claim10_clarify_before_provider_check (provider : String)
    (api : List RawMsg → Except String String) (w d ti : String) (idx : CourseIndex)
    (sf : String → Except String String) (msgs : List RawMsg)
    (_hprov : provider ≠ "openai")
    (hdet : findCourseFromUserText idx (lastUserTextOf msgs) = none)
    (hneed : needsCourseContext (lastUserTextOf msgs) = true)
    (hlen : 1 < idx.length) :
    chatHandler provider api w d ti (Except.ok idx) sf (some msgs) =
      { response := HttpResponse.replyJson (clarificationReply (idx.map (fun p => p.1))),
        llmOutbound := none } ∧
    (chatHandler provider api w d ti (Except.ok idx) sf (some msgs)).response ≠
      HttpResponse.serverError := by
  have heq := chatHandler_clarify provider api w d ti idx sf msgs hdet hneed hlen
  refine ⟨heq, ?_⟩
  rw [heq]
  simp

/-- Witness for C10: PROVIDER=openrouter, ambiguous organizational question. -/
theorem claim10_witness :
    (chatHandler "openrouter" witApi "Monday" "2026-01-05" "10:00" (Except.ok witIdxAmb)
        witSfDown (some witMsgsExam) =
      { response := HttpResponse.replyJson (clarificationReply (witIdxAmb.map (fun p => p.1))),
        llmOutbound := none }) ∧
    (chatHandler "openrouter" witApi "Monday" "2026-01-05" "10:00" (Except.ok witIdxAmb)
        witSfDown (some witMsgsExam)).response ≠ HttpResponse.serverError :=
  claim10_clarify_before_provider_check "openrouter" witApi "Monday" "2026-01-05" "10:00"
    witIdxAmb witSfDown witMsgsExam (by decide) (by decide) (by decide) (by decide)

theorem chatHandler_response_ne_badRequest (provider : String)
    (api : List RawMsg → Except String String) (w d ti : String)
    (indexResult : Except String CourseIndex) (sf : String → Except String String)
    (msgs : List RawMsg) :
    (chatHandler provider api w d ti indexResult sf (some msgs)).response ≠
      HttpResponse.badRequest := by
  rcases hp : syllabusPhase indexResult sf (lastUserTextOf msgs) with r | syl
  · simp [chatHandler, hp]
  · simp only [chatHandler, hp]
    cases syl with
    | none =>
      cases hc : callLLM provider api
          ([runtimeContextMessage w d ti (lastUserTextOf msgs), systemMessage] ++ msgs) with
      | ok r => simp [hc]
      | error e => simp [hc]
    | some s =>
      cases hc : callLLM provider api
          ([runtimeContextMessage w d ti (lastUserTextOf msgs), systemMessage, s] ++ msgs) with
      | ok r => simp [hc]
      | error e => simp [hc]

/-- C2 counterexample: the claim "a syllabus message is present iff a course
was detected and its syllabus text was retrievable" fails at two concrete
inputs. First: an index whose only course is named "" with alias "tim" —
detection returns some "" and the syllabus at its url "u" is retrievable, yet
the outbound sequence carries no syllabus message (JS tests truthiness of the
detected name, and "" is falsy). Second: a course "TIM" whose syllabus_url is
"" — detected, fetch of "" would succeed, yet no syllabus message (JS tests
truthiness of the url). -/
theorem claim2_counterexample :
    (findCourseFromUserText cexIdxEmptyName (lastUserTextOf cexMsgsTim) = some "" ∧
     (cexIdxEmptyName.find? (fun p => decide (p.1 = ""))).bind (fun p => p.2.syllabus_url) =
       some "u" ∧
     witSfOk "u" = Except.ok "SYLTEXT" ∧
     (chatHandler "openai" witApi "Monday" "2026-01-05" "10:00" (Except.ok cexIdxEmptyName)
         witSfOk (some cexMsgsTim)).llmOutbound =
       some (runtimeContextMessage "Monday" "2026-01-05" "10:00" "tim" :: systemMessage ::
         cexMsgsTim)) ∧
    (findCourseFromUserText cexIdxEmptyUrl (lastUserTextOf cexMsgsTimStuff) = some "TIM" ∧
     (cexIdxEmptyUrl.find? (fun p => decide (p.1 = "TIM"))).bind (fun p => p.2.syllabus_url) =
       some "" ∧
     witSfOk "" = Except.ok "SYLTEXT" ∧
     (chatHandler "openai" witApi "Monday" "2026-01-05" "10:00" (Except.ok cexIdxEmptyUrl)
         witSfOk (some cexMsgsTimStuff)).llmOutbound =
       some (runtimeContextMessage "Monday" "2026-01-05" "10:00" "tim stuff" :: systemMessage ::
         cexMsgsTimStuff)) :=
  ⟨⟨by decide, by decide, rfl, rfl⟩, ⟨by decide, by decide, rfl, rfl⟩⟩

/-- C2 (amended): whenever the model client is invoked, the outbound sequence
is [runtime-context, persona] ++ (optional syllabus message) ++ the caller
conversation unmodified, and the syllabus message is present exactly when the
detected course has a truthy (non-empty) name, its index entry carries a
truthy (non-empty) syllabus_url, and fetching that url succeeded. -/
theorem claim2_amended_assembly (provider : String) (api : List RawMsg → Except String String)
    (w d ti : String) (indexResult : Except String CourseIndex)
    (sf : String → Except String String) (msgs out : List RawMsg)
    (h : (chatHandler provider api w d ti indexResult sf (some msgs)).llmOutbound = some out) :
    ∃ sylOpt : Option RawMsg,
      out = runtimeContextMessage w d ti (lastUserTextOf msgs) :: systemMessage ::
        (sylOpt.toList ++ msgs) ∧
      ((∃ c text, sylOpt = some (syllabusMsg c text) ∧
          syllabusRetrieved indexResult sf (lastUserTextOf msgs) c text) ∨
        (sylOpt = none ∧
          ∀ c text, ¬ syllabusRetrieved indexResult sf (lastUserTextOf msgs) c text)) := by
  rcases hp : syllabusPhase indexResult sf (lastUserTextOf msgs) with r | syl
  · simp [chatHandler, hp] at h
  · have hout := chatHandler_llmOutbound_of_proceed provider api w d ti indexResult sf msgs
      syl hp
    rw [h] at hout
    injection hout with hout'
    refine ⟨syl, hout', ?_⟩
    cases indexResult with
    | error e =>
      have hsyl : syl = none := by
        have h0 : syllabusPhase (Except.error e) sf (lastUserTextOf msgs) =
            PhaseResult.proceed (none : Option RawMsg) := rfl
        have h1 := h0.symm.trans hp
        injection h1 with h2
        exact h2.symm
      subst hsyl
      refine Or.inr ⟨rfl, ?_⟩
      rintro c text ⟨idx, hidx, _⟩
      cases hidx
    | ok idx =>
      simp only [syllabusPhase] at hp
      split at hp
      · cases hp
      · have hpay : syllabusPayload idx sf (lastUserTextOf msgs) = syl := by injection hp
        cases syl with
        | some s =>
          obtain ⟨c, text, hs, hr⟩ := syllabusPayload_some_spec idx sf _ s hpay
          exact Or.inl ⟨c, text, by rw [hs], hr⟩
        | none =>
          exact Or.inr ⟨rfl, fun c text => syllabusPayload_none_spec idx sf _ hpay c text⟩

/-- Witness for C2 (amended): course "KFK TIM" detected, syllabus fetched, so
the syllabus message sits between the persona message and the conversation. -/
theorem claim2_witness :
    ∃ sylOpt : Option RawMsg,
      witOutKfk = runtimeContextMessage "Monday" "2026-01-05" "10:00"
        (lastUserTextOf witMsgsKfk) :: systemMessage :: (sylOpt.toList ++ witMsgsKfk) ∧
      ((∃ c text, sylOpt = some (syllabusMsg c text) ∧
          syllabusRetrieved (Except.ok witIdxKfk) witSfOk (lastUserTextOf witMsgsKfk) c text) ∨
        (sylOpt = none ∧
          ∀ c text, ¬ syllabusRetrieved (Except.ok witIdxKfk) witSfOk
            (lastUserTextOf witMsgsKfk) c text)) :=
  claim2_amended_assembly "openai" witApi "Monday" "2026-01-05" "10:00" (Except.ok witIdxKfk)
    witSfOk witMsgsKfk witOutKfk rfl

/-- C7 counterexample: a conversation whose single entry has neither role nor
content is not rejected — the handler only checks that messages is an array,
so this request reaches the model call and returns 200, not 400. -/
theorem claim7_counterexample :
    (chatHandler "openai" witApi "Monday" "2026-01-05" "10:00" (Except.error "fetch failed")
        witSfDown (some c7Msgs)).response = HttpResponse.replyJson "All good." ∧
    (chatHandler "openai" witApi "Monday" "2026-01-05" "10:00" (Except.error "fetch failed")
        witSfDown (some c7Msgs)).response ≠ HttpResponse.badRequest :=
  ⟨rfl, by decide⟩

/-- C7 (amended): the handler's only validation is Array.isArray — it responds
400 {"error":"messages must be an array"} exactly when the messages field is
not an array; array entries missing role or content are accepted. -/
theorem claim7_amended_validation (provider : String) (api : List RawMsg → Except String String)
    (w d ti : String) (indexResult : Except String CourseIndex)
    (sf : String → Except String String) (mf : Option (List RawMsg)) :
    (chatHandler provider api w d ti indexResult sf mf).response = HttpResponse.badRequest ↔
      mf = none := by
  cases mf with
  | none => simp [chatHandler]
  | some msgs =>
    constructor
    · intro hcontra
      exact absurd hcontra
        (chatHandler_response_ne_badRequest provider api w d ti indexResult sf msgs)
    · intro hcontra
      cases hcontra

/-- Witness for C7 (amended): a non-array messages field yields the 400. -/
theorem claim7_witness :
    (chatHandler "openai" witApi "Monday" "2026-01-05" "10:00" (Except.error "fetch failed")
        witSfDown none).response = HttpResponse.badRequest :=
  (claim7_amended_validation "openai" witApi "Monday" "2026-01-05" "10:00"
    (Except.error "fetch failed") witSfDown none).mpr rfl

/-- C8 counterexample: when the index cannot be loaded (here: no index url is
configured), GET /debug/syllabi-index responds with HTTP status 500, not 200. -/
theorem claim8_counterexample :
    (debugSyllabiIndexHandler none none 0 900000 (Except.ok [])).status = 500 ∧
    (debugSyllabiIndexHandler none none 0 900000 (Except.ok [])).status ≠ 200 :=
  ⟨rfl, by decide⟩

/-- C8 (amended): GET /debug/syllabi-index responds 200 { ok: true, courses }
when the index loads, and 500 { ok: false, error } when loading fails
(including when the index location is not configured). -/
theorem claim8_amended_status (cfgUrl : Option String) (st : IndexCacheEntry)
    (now ttl : Int) (fr : Except String CourseIndex) :
    (∀ idx, (getSyllabiIndex cfgUrl st now ttl fr).1 = Except.ok idx →
      debugSyllabiIndexHandler cfgUrl st now ttl fr =
        { status := 200, ok := true, courses := some (idx.map (fun p => p.1)),
          errorText := none }) ∧
    (∀ e, (getSyllabiIndex cfgUrl st now ttl fr).1 = Except.error e →
      debugSyllabiIndexHandler cfgUrl st now ttl fr =
        { status := 500, ok := false, courses := none, errorText := some e }) := by
  constructor
  · intro idx h
    simp [debugSyllabiIndexHandler, h]
  · intro e h
    simp [debugSyllabiIndexHandler, h]

/-- Witness for C8 (amended): missing configuration surfaces as the 500
{ ok: false, error } body. -/
theorem claim8_witness :
    debugSyllabiIndexHandler none none 0 900000 (Except.error "boom") =
      { status := 500, ok := false, courses := none,
        errorText := some "Missing SYLLABI_INDEX_URL env var" } :=
  (claim8_amended_status none none 0 900000 (Except.error "boom")).2
    "Missing SYLLABI_INDEX_URL env var" rfl
